import Mathlib

/-!
Shallow embedding of the RAG service of `modulo_rag/backend`
(`rag_service.py` and the `chat` endpoint of `main.py`).

External capabilities (the text splitter, the embedding-based similarity
ranking and the LLM) are taken as function parameters; everything else is
translated from the Python source.
-/

namespace RagService

/-- A langchain `Document`, restricted to the fields the service reads or
writes: `page_content`, the `subject_id` and `source_file` metadata entries
set by `index_documents`, and the `ocr` metadata flag set by
`load_document` on the OCR fallback path. -/
structure Document where
  page_content : String
  subject_id : Option String := none
  source_file : Option String := none
  ocr : Bool := false
deriving DecidableEq, Repr

/-- The outcome of rendering and recognising one PDF page inside the
`for i, page in enumerate(doc)` loop of `extract_text_with_ocr`: either the
list of recognised text snippets (`result[1]` for each `reader.readtext`
result) or an exception raised while rendering or recognising the page. -/
inductive OcrPageResult where
  | ok (words : List String) : OcrPageResult
  | error (msg : String) : OcrPageResult
deriving DecidableEq, Repr

/-- Python's `str.strip()`: drop leading and trailing whitespace. -/
def stripChars (l : List Char) : List Char :=
  ((l.dropWhile Char.isWhitespace).reverse.dropWhile Char.isWhitespace).reverse

/-- `s.strip()` on a Python string, as used for the OCR threshold and the
request-field trimming of the `chat` endpoint. -/
def pyStrip (s : String) : String :=
  String.mk (stripChars s.data)

/-- `page_text = " ".join([result[1] for result in results])` -/
def ocrPageText (words : List String) : String :=
  " ".intercalate words

/-- The page loop of `extract_text_with_ocr`.  The whole loop body runs
inside the single `try` of the function, so the first page that raises
aborts the loop: `none` models the exception escaping to the `except`
handler, `some ts` the list `all_text` with one entry per page (empty
entries included, exactly as the Python list is built). -/
def ocrLoop : List OcrPageResult → Option (List String)
  | [] => some []
  | OcrPageResult.error _ :: _ => none
  | OcrPageResult.ok ws :: rest =>
    match ocrLoop rest with
    | none => none
    | some ts => some (ocrPageText ws :: ts)

/-- `extract_text_with_ocr` (rag_service.py:49-81): on success returns
`"\n\n".join(all_text)`; any exception (opening the file or any page) is
caught by the document-level `except` and yields `""`. -/
def extract_text_with_ocr (pages : List OcrPageResult) : String :=
  match ocrLoop pages with
  | none => ""
  | some ts => "\n\n".intercalate ts

/-- The content of a file as the loaders see it: a PDF gives both the
native text layer (`PyPDFLoader.load`, one string per page) and the
per-page OCR outcomes used if the OCR path is taken; any other extension is
read as one UTF-8 text blob (`TextLoader`).  A missing file is modelled by
`Option.none` at the lookup site. -/
inductive FileContent where
  | pdf (nativePages : List String) (ocrPages : List OcrPageResult) : FileContent
  | text (content : String) : FileContent
deriving DecidableEq, Repr

/-- `load_document` (rag_service.py:118-152), instrumented with a boolean
recording whether `extract_text_with_ocr` was invoked.  For a PDF it loads
the native pages, measures `len("".join(page_contents).strip())` and, below
the 100-character threshold, runs OCR; a non-empty OCR result replaces the
native documents by a single OCR-tagged document, an empty one falls
through to `return docs`.  Text-like and unknown extensions both use
`TextLoader`, producing one document. -/
def load_document : FileContent → List Document × Bool
  | FileContent.pdf nativePages ocrPages =>
    let docs := nativePages.map (fun t => { page_content := t : Document })
    let text_length := (pyStrip (String.join nativePages)).length
    if text_length < 100 then
      let ocr_text := extract_text_with_ocr ocrPages
      if ocr_text ≠ "" then
        ([{ page_content := ocr_text, ocr := true }], true)
      else
        (docs, true)
    else
      (docs, false)
  | FileContent.text c => ([{ page_content := c }], false)

/-- The per-document metadata mutation of `index_documents`
(rag_service.py:162-164): `doc.metadata["subject_id"] = subject_id` and
`doc.metadata["source_file"] = file_path`. -/
def tagDoc (sid fp : String) (d : Document) : Document :=
  { d with subject_id := some sid, source_file := some fp }

/-- The `for file_path in file_paths` loop of `index_documents`
(rag_service.py:159-167): each loadable file's documents are tagged and
appended to `all_documents`; a file whose load raises (here: a missing
file, `FileNotFoundError` from `load_document`) adds one entry to
`errors` instead.  `fs` is the file system, mapping a path to its content
or `none` when the path does not exist. -/
def loadAll (fs : String → Option FileContent) (sid : String) :
    List String → List Document × List (String × String)
  | [] => ([], [])
  | fp :: rest =>
    match fs fp with
    | none =>
      ((loadAll fs sid rest).1,
       (fp, "Archivo no encontrado: " ++ fp) :: (loadAll fs sid rest).2)
    | some c =>
      ((load_document c).1.map (tagDoc sid fp) ++ (loadAll fs sid rest).1,
       (loadAll fs sid rest).2)

/-- The dictionary returned by `index_documents`: `errors` is `none` when
Python returns `None` for that key and `some l` when it returns the list
`l` (possibly empty, as in the all-failed branch). -/
structure IndexResult where
  status : String
  documents_processed : Option Nat := none
  chunks_created : Option Nat := none
  errors : Option (List (String × String)) := none
  message : Option String := none
deriving DecidableEq, Repr

/-- `self.vector_store._collection.delete(where={"subject_id": subject_id})`:
keeps exactly the chunks whose `subject_id` metadata differs from the
deleted subject. -/
def deleteSubject (subject_id : String) (cs : List Document) : List Document :=
  cs.filter (fun d => d.subject_id ≠ some subject_id)

/-- `index_documents` (rag_service.py:154-198).  The vector store is the
list of stored chunks, `none` when `self.vector_store is None`; `split`
is the external `RecursiveCharacterTextSplitter.split_documents`
capability.  Loadable files are loaded and tagged, failures recorded; if
nothing loaded, the call returns a status-error dictionary and leaves the
store untouched.  Otherwise the old partition of `subject_id` is deleted
(the `try`/`except: pass` around the delete never fails in this model) and
the fresh chunks are appended — `Chroma.from_documents` when the store did
not exist, `add_documents` when it did. -/
def index_documents (split : List Document → List Document)
    (fs : String → Option FileContent)
    (store : Option (List Document))
    (file_paths : List String) (subject_id : String) :
    Option (List Document) × IndexResult :=
  let all_documents := (loadAll fs subject_id file_paths).1
  let errors := (loadAll fs subject_id file_paths).2
  if all_documents.isEmpty then
    (store,
     { status := "error",
       message := some "No se pudo cargar ningún documento",
       errors := some errors })
  else
    let chunks := split all_documents
    let newStore :=
      match store with
      | none => chunks
      | some cs => deleteSubject subject_id cs ++ chunks
    (some newStore,
     { status := "ok",
       documents_processed := some (file_paths.length - errors.length),
       chunks_created := some chunks.length,
       errors := if errors.isEmpty then none else some errors })

/-- `get_stats` (rag_service.py:324-333): `(indexed, count)`. -/
def get_stats : Option (List Document) → Bool × Nat
  | none => (false, 0)
  | some cs => (true, cs.length)

/-- The total chunk count of the index, `collection.count()`. -/
def storeCount (store : Option (List Document)) : Nat :=
  (get_stats store).2

/-- The Python truthiness test `if subject_id:` applied to the optional
filter (rag_service.py:210): `None` and the empty string are falsy, any
other string installs the metadata filter. -/
def pyFilter : Option String → Option String
  | none => none
  | some s => if s = "" then none else some s

/-- `Chroma.similarity_search(question, k=..., filter=...)`, modelled at
the interface of the external vector store: the metadata filter restricts
the candidates to the chunks whose `subject_id` equals the filter value,
the embedding-similarity ranking over the candidates is the abstract
capability `rank`, and the first `k` ranked candidates are returned. -/
def similarity_search (rank : String → List Document → List Document)
    (store : List Document) (question : String) (k : Nat)
    (filt : Option String) : List Document :=
  let candidates :=
    match filt with
    | some sid => store.filter (fun d => d.subject_id = some sid)
    | none => store
  (rank question candidates).take k

/-- The context block of `query` (rag_service.py:223-226): each retrieved
chunk labelled with its 1-based rank, joined by `"\n\n---\n\n"`. -/
def contextOf (docs : List Document) : String :=
  "\n\n---\n\n".intercalate
    (docs.enum.map
      (fun p => "[Fragmento " ++ toString (p.1 + 1) ++ "]\n" ++ p.2.page_content))

/-- The separator lines of the prompt template. -/
def sepLine : String :=
  "---------------------------------------------------------"

/-- The grounding prompt of `query` (rag_service.py:229-301), the f-string
with `context` and `question` interpolated. -/
def buildPrompt (context question : String) : String :=
  "\n".intercalate
    ["Eres un asistente académico especializado en responder usando EXCLUSIVAMENTE la información del contexto RAG (apuntes, PDFs o fragmentos entregados). ",
     "Está TERMINANTEMENTE PROHIBIDO inventar datos, expandir teoría que no aparece o usar conocimientos externos.",
     "",
     sepLine,
     "REGLAS GENERALES (siempre obligatorias)",
     sepLine,
     "1. Usa SOLO la información del contexto. Si algo no está, responde literalmente: ",
     "   \"No aparece en los documentos proporcionados.\"",
     "2. Mantén la terminología EXACTA del material original.",
     "3. Si hay definiciones, listas, fórmulas o pasos, respétalos sin modificarlos.",
     "4. Si el contexto es ambiguo, incompleto o contradictorio, indícalo explícitamente.",
     "5. Sé claro, ordenado y conciso. Nada de texto genérico.",
     "6. Justifica siempre usando frases del contexto cuando sea pertinente.",
     "",
     sepLine,
     "MODOS DE RESPUESTA (según lo que pida el usuario)",
     sepLine,
     "",
     "### 1) RESUMEN",
     "Si el usuario pide \"resumen\", \"sintetiza\", \"resume el tema X\", etc.:",
     "- Produce:",
     "  - **Resumen principal** (6–10 líneas)",
     "  - **Conceptos clave** (viñetas, cada una en su propia línea)",
     "  - **Advertencias** (si falta info en el contexto)",
     "",
     "### 2) EXPLICACIÓN DE CONCEPTOS",
     "Si el usuario pide \"explica\", \"qué es\", \"definición\", etc.:",
     "1. Definición EXACTA según los apuntes.",
     "2. Interpretación / intuición **solo si aparece en el contexto**.",
     "3. Puntos esenciales (solo los presentes en el texto).",
     "4. Qué NO se menciona o queda ambiguo.",
     "",
     "### 3) EJERCICIOS TIPO TEST",
     "Si el usuario pide \"resuelve este test\", \"pregunta tipo test\", \"respuestas\", etc.:",
     "1. Razonamiento paso a paso usando SOLO el contexto.",
     "2. Si no se puede deducir, responde: \"El contexto no ofrece suficiente información.\"",
     "3. Formato final: RESPUESTA: X",
     "",
     "### 4) CORRECCIÓN DE RESPUESTAS",
     "Si el usuario pide \"corrige\", \"compara\", \"evalúa\", etc.:",
     "- Indica si coincide con el contexto.",
     "- Qué parte del texto lo confirma o contradice.",
     "- Corrección mínima y fiel al documento.",
     "",
     "### 5) CHULETAS / ESQUEMAS",
     "Si el usuario pide \"haz un esquema\", \"chuleta\", \"apuntes simplificados\", etc.:",
     "- Esquema breve con viñetas.",
     "- Conceptos clave y definiciones cortas.",
     "- NO añadas nada que no esté en el documento.",
     "",
     sepLine,
     "REGLA CRÍTICA (ANTI-ALUCINACIÓN)",
     sepLine,
     "Si la respuesta requiere información que el contexto NO contiene:",
     "→ Indica claramente que NO se puede responder con los datos dados.",
     "→ Nunca intentes completar lo que falta con conocimiento externo.",
     "",
     sepLine,
     "FORMATO",
     sepLine,
     "- Cada punto de lista en su PROPIA LÍNEA",
     "- Usa guiones (-) para listas",
     "- Usa **negritas** para términos clave",
     "- Deja líneas en blanco entre secciones",
     "",
     sepLine,
     "CONTEXTO (MATERIAL DEL ESTUDIANTE):",
     context,
     sepLine,
     "",
     "PREGUNTA DEL ESTUDIANTE: " ++ question,
     "",
     "RESPUESTA:"]

/-- `doc.metadata.get("source_file", "desconocido")`. -/
def fileOf (d : Document) : String :=
  d.source_file.getD "desconocido"

/-- `doc.metadata.get("subject_id", "desconocido")`. -/
def subjOf (d : Document) : String :=
  d.subject_id.getD "desconocido"

/-- The source-extraction loop of `query` (rag_service.py:307-316): walk
the retrieved chunks in rank order, keeping a `seen_files` set, and emit
one `(file, subject)` pair for each first occurrence of a `source_file`. -/
def sourcesLoop : List Document → List String → List (String × String)
  | [], _ => []
  | d :: rest, seen =>
    if fileOf d ∈ seen then
      sourcesLoop rest seen
    else
      (fileOf d, subjOf d) :: sourcesLoop rest (fileOf d :: seen)

/-- The `sources` list built by `query` from the retrieved chunks. -/
def extract_sources (docs : List Document) : List (String × String) :=
  sourcesLoop docs []

/-- The dictionary returned by `query`; `sources` is `none` when the key
is absent (the no-index branch). -/
structure QueryResponse where
  status : String
  answer : Option String := none
  sources : Option (List (String × String)) := none
  message : Option String := none
deriving DecidableEq, Repr

/-- `query` (rag_service.py:200-322).  `rank` is the external similarity
ranking, `llm` the external generation capability, which either returns
the answer text or raises (`Except.error`).  The returned `Nat` counts the
`self.llm.invoke` calls made.  The function body has no `try`/`except`, so
an exception from `llm` propagates (`Except.error` in the result). -/
def query (rank : String → List Document → List Document)
    (llm : String → Except String String)
    (store : Option (List Document))
    (question : String) (subject_id : Option String) :
    Except String (QueryResponse × Nat) :=
  match store with
  | none =>
    Except.ok
      ({ status := "error",
         message := some "No hay documentos indexados. Usa /api/index primero." }, 0)
  | some cs =>
    let docs := similarity_search rank cs question 8 (pyFilter subject_id)
    if docs.isEmpty then
      Except.ok
        ({ status := "ok",
           answer := some "No encontré información relevante en el material disponible.",
           sources := some [] }, 0)
    else
      match llm (buildPrompt (contextOf docs) question) with
      | Except.error e => Except.error e
      | Except.ok content =>
        Except.ok
          ({ status := "ok",
             answer := some content,
             sources := some (extract_sources docs) }, 1)

/-- The outcome of the `/api/chat` endpoint: an HTTP 400 rejection, a
normal response (with the llm-invocation count threaded through from
`query`), or an unhandled exception escaping the endpoint. -/
inductive ChatResult where
  | badRequest (detail : String) : ChatResult
  | response (r : QueryResponse) (llmCalls : Nat) : ChatResult
  | exn (e : String) : ChatResult
deriving DecidableEq, Repr

/-- The `chat` endpoint (main.py:123-137): rejects a blank question with
HTTP 400, then calls `query` with the stripped question and
`request.subject_id.strip() if request.subject_id else None` — Python
truthiness makes `None` and `""` fall to `None`, while any other string
(whitespace-only included) is stripped and passed on. -/
def chat (rank : String → List Document → List Document)
    (llm : String → Except String String)
    (store : Option (List Document))
    (question : String) (subject_id : Option String) : ChatResult :=
  if pyStrip question = "" then
    ChatResult.badRequest "La pregunta no puede estar vacía"
  else
    let sid : Option String :=
      match subject_id with
      | none => none
      | some s => if s = "" then none else some (pyStrip s)
    match query rank llm store (pyStrip question) sid with
    | Except.ok (r, n) => ChatResult.response r n
    | Except.error e => ChatResult.exn e

/-- Spec-side description of the source list (§4.6 of the spec): one entry
per distinct `source_file` of the retrieved chunks, in first-seen rank
order, each paired with the subject of the first chunk carrying that
file.  Stated independently of the implementation's seen-set loop, to be
compared with `extract_sources`. -/
def sourcesSpec : List Document → List (String × String)
  | [] => []
  | d :: rest =>
    (fileOf d, subjOf d) ::
      sourcesSpec (rest.filter (fun x => fileOf x ≠ fileOf d))
termination_by l => l.length
decreasing_by
  simp only [List.length_cons]
  exact Nat.lt_succ_of_le (List.length_filter_le _ _)

/-! ## Helper lemmas -/

theorem ocrLoop_eq_none_of_error {pages : List OcrPageResult} {m : String}
    (h : OcrPageResult.error m ∈ pages) : ocrLoop pages = none := by
  induction pages with
  | nil => cases h
  | cons p rest ih =>
    cases p with
    | error s => rfl
    | ok ws =>
      cases h with
      | tail _ h' => simp [ocrLoop, ih h']

theorem ocrLoop_length {pages : List OcrPageResult} {ts : List String}
    (h : ocrLoop pages = some ts) : ts.length = pages.length := by
  induction pages generalizing ts with
  | nil => simp [ocrLoop] at h; simp [h]
  | cons p rest ih =>
    cases p with
    | error s => simp [ocrLoop] at h
    | ok ws =>
      simp only [ocrLoop] at h
      cases hrest : ocrLoop rest with
      | none => rw [hrest] at h; cases h
      | some ts' =>
        rw [hrest] at h
        cases h
        simp [ih hrest]

/-! ## Claim theorems: extractor and OCR bridge -/

/-- C4 counterexample: a recognition error on the second page makes
`extract_text_with_ocr` return the empty string, discarding the `"hola"`
already recognised on the first page — whereas the same first page alone
yields `"hola"`.  This falsifies "one bad page never discards the text
recognized from the other pages". -/
theorem C4_counterexample :
    extract_text_with_ocr [OcrPageResult.ok ["hola"], OcrPageResult.error "fallo"] = ""
    ∧ extract_text_with_ocr [OcrPageResult.ok ["hola"]] = "hola" :=
  ⟨rfl, rfl⟩

/-- C4 (amended): a page-level rendering or recognition error is caught at
document granularity, not page granularity: if any page of the PDF fails,
the whole document's OCR aborts and returns empty text, discarding the
text recognised from every other page. -/
theorem C4_amended_claim (pages : List OcrPageResult) (m : String)
    (h : OcrPageResult.error m ∈ pages) :
    extract_text_with_ocr pages = "" := by
  unfold extract_text_with_ocr
  rw [ocrLoop_eq_none_of_error h]

/-- Witness for C4: concrete three-page document whose middle page fails. -/
theorem C4_witness :
    OcrPageResult.error "e" ∈
      [OcrPageResult.ok ["a"], OcrPageResult.error "e", OcrPageResult.ok ["b"]]
    ∧ extract_text_with_ocr
        [OcrPageResult.ok ["a"], OcrPageResult.error "e", OcrPageResult.ok ["b"]] = "" :=
  ⟨by decide, C4_amended_claim _ "e" (by decide)⟩

/-- C5 counterexample: a two-page PDF whose OCR recognises `"a"` and `"b"`
produces a single TextUnit (`"a\n\nb"`), not one unit per page; and a page
yielding no text is not dropped — it contributes an empty segment to the
join (`"a\n\n"` instead of `"a"`). -/
theorem C5_counterexample :
    (load_document (FileContent.pdf [""]
      [OcrPageResult.ok ["a"], OcrPageResult.ok ["b"]])).1.length = 1
    ∧ extract_text_with_ocr [OcrPageResult.ok ["a"], OcrPageResult.ok []] = "a\n\n" :=
  ⟨rfl, rfl⟩

/-- C5 (amended): the OCR path produces a single TextUnit for the whole
document, whose content is the per-page recognised texts — one entry per
page, empty pages included — joined by blank lines; pages are never
emitted as individual units. -/
theorem C5_amended_claim (np : List String) (op : List OcrPageResult)
    (ts : List String)
    (hloop : ocrLoop op = some ts)
    (hlen : (pyStrip (String.join np)).length < 100)
    (hne : "\n\n".intercalate ts ≠ "") :
    (load_document (FileContent.pdf np op)).1
      = [{ page_content := "\n\n".intercalate ts, ocr := true }]
    ∧ ts.length = op.length := by
  have hocr : extract_text_with_ocr op = "\n\n".intercalate ts := by
    unfold extract_text_with_ocr
    rw [hloop]
  refine ⟨?_, ocrLoop_length hloop⟩
  simp [load_document, hlen, hocr, hne]

/-- Witness for C5: two OCR pages, the second empty, native layer blank. -/
theorem C5_witness :
    ocrLoop [OcrPageResult.ok ["a"], OcrPageResult.ok []] = some ["a", ""]
    ∧ (load_document (FileContent.pdf []
        [OcrPageResult.ok ["a"], OcrPageResult.ok []])).1
        = [{ page_content := "a\n\n", ocr := true }] :=
  ⟨rfl,
   ((C5_amended_claim [] [OcrPageResult.ok ["a"], OcrPageResult.ok []] ["a", ""]
      rfl (by decide) (by decide)).1)⟩

/-- C8: the OCR path is invoked if and only if the natively extracted
text, trimmed of whitespace, has strictly fewer than 100 characters; and
when OCR is triggered and yields non-empty text, the native result is
replaced entirely by a single OCR document (no merge). -/
theorem C8_ocr_threshold (np : List String) (op : List OcrPageResult) :
    ((load_document (FileContent.pdf np op)).2 = true
      ↔ (pyStrip (String.join np)).length < 100)
    ∧ ((pyStrip (String.join np)).length < 100 → extract_text_with_ocr op ≠ "" →
        (load_document (FileContent.pdf np op)).1
          = [{ page_content := extract_text_with_ocr op, ocr := true }]) := by
  by_cases h : (pyStrip (String.join np)).length < 100
  · constructor
    · simp only [load_document, if_pos h]
      constructor
      · intro _
        exact h
      · intro _
        split <;> rfl
    · intro _ hocr
      simp [load_document, if_pos h, hocr]
  · constructor
    · simp [load_document, if_neg h, h]
    · intro h' _
      exact absurd h' h

/-- Witness for C8: a blank native layer (0 trimmed characters) triggers
OCR, and the OCR text `"texto"` becomes the single resulting document. -/
theorem C8_witness :
    (load_document (FileContent.pdf [] [OcrPageResult.ok ["texto"]])).2 = true
    ∧ (load_document (FileContent.pdf [] [OcrPageResult.ok ["texto"]])).1
        = [{ page_content := "texto", ocr := true }] :=
  ⟨(C8_ocr_threshold [] [OcrPageResult.ok ["texto"]]).1.mpr (by decide),
   (C8_ocr_threshold [] [OcrPageResult.ok ["texto"]]).2 (by decide) (by decide)⟩

/-- C2 counterexample: a one-page PDF with native text `"hi"` (2 trimmed
characters, below the threshold) whose OCR raises: OCR is invoked and
fails, yet the document contributes its 1 native TextUnit (not zero) and
the batch's error list is `None` (no per-file error recorded). -/
theorem C2_counterexample :
    (load_document (FileContent.pdf ["hi"] [OcrPageResult.error "fallo"])).2 = true
    ∧ (load_document (FileContent.pdf ["hi"] [OcrPageResult.error "fallo"])).1.length = 1
    ∧ (index_documents (fun l => l)
        (fun fp => if fp = "a.pdf"
          then some (FileContent.pdf ["hi"] [OcrPageResult.error "fallo"]) else none)
        none ["a.pdf"] "S").2.errors = none :=
  ⟨rfl, rfl, rfl⟩

/-- C2 (amended): when native extraction of a PDF falls below the OCR
threshold and the OCR path fails or returns empty text, ingestion does not
crash, but the document falls back to contributing its native (sparse)
TextUnits — not zero — and the batch records no per-file error and reports
status "ok". -/
theorem C2_amended_claim (np : List String) (op : List OcrPageResult)
    (fs : String → Option FileContent) (fp sid : String)
    (split : List Document → List Document) (store : Option (List Document))
    (hlen : (pyStrip (String.join np)).length < 100)
    (hocr : extract_text_with_ocr op = "")
    (hfs : fs fp = some (FileContent.pdf np op))
    (hnp : np ≠ []) :
    (load_document (FileContent.pdf np op)).1
      = np.map (fun t => { page_content := t : Document })
    ∧ (index_documents split fs store [fp] sid).2.errors = none
    ∧ (index_documents split fs store [fp] sid).2.status = "ok" := by
  have hload : (load_document (FileContent.pdf np op)).1
      = np.map (fun t => { page_content := t : Document }) := by
    simp [load_document, hlen, hocr]
  have hne2 : (load_document (FileContent.pdf np op)).1 ≠ [] := by
    rw [hload]
    simpa using hnp
  refine ⟨hload, ?_, ?_⟩ <;>
    simp [index_documents, loadAll, hfs, hne2]

/-- Witness for C2: the concrete failing-OCR PDF from the counterexample,
indexed as the only file of a batch. -/
theorem C2_witness :
    (load_document (FileContent.pdf ["hi"] [OcrPageResult.error "x"])).1
      = [{ page_content := "hi" }]
    ∧ (index_documents (fun l => l)
        (fun fp => if fp = "b.pdf"
          then some (FileContent.pdf ["hi"] [OcrPageResult.error "x"]) else none)
        (some []) ["b.pdf"] "S").2.errors = none :=
  ⟨by
    have h := (C2_amended_claim ["hi"] [OcrPageResult.error "x"]
      (fun fp => if fp = "b.pdf"
        then some (FileContent.pdf ["hi"] [OcrPageResult.error "x"]) else none)
      "b.pdf" "S" (fun l => l) (some []) (by decide) rfl rfl (by decide)).1
    simpa using h,
   (C2_amended_claim ["hi"] [OcrPageResult.error "x"]
      (fun fp => if fp = "b.pdf"
        then some (FileContent.pdf ["hi"] [OcrPageResult.error "x"]) else none)
      "b.pdf" "S" (fun l => l) (some []) (by decide) rfl rfl (by decide)).2.1⟩

/-! ## Claim theorems: query-time error propagation -/

/-- C3 counterexample: with one indexed chunk and a generation capability
that raises, `query` propagates the exception to the caller instead of
degrading it to a structured "could not answer" response. -/
theorem C3_counterexample :
    query (fun _ l => l) (fun _ => Except.error "boom")
      (some [{ page_content := "x" }]) "q" none = Except.error "boom" :=
  rfl

/-- C3 (amended): `query` returns structured responses only for the
no-index case (and the empty-retrieval case); when retrieval is non-empty,
a failure of the external generation capability propagates to the caller
as an exception — `query` has no handler. -/
theorem C3_amended_claim (rank : String → List Document → List Document)
    (llm : String → Except String String) (cs : List Document)
    (q : String) (sid : Option String) (e : String)
    (hne : similarity_search rank cs q 8 (pyFilter sid) ≠ [])
    (hfail : llm (buildPrompt
        (contextOf (similarity_search rank cs q 8 (pyFilter sid))) q)
        = Except.error e) :
    query rank llm (some cs) q sid = Except.error e
    ∧ query rank llm none q sid
        = Except.ok
            ({ status := "error",
               message := some "No hay documentos indexados. Usa /api/index primero." }, 0) := by
  have h1 : (similarity_search rank cs q 8 (pyFilter sid)).isEmpty = false := by
    simpa [List.isEmpty_iff] using hne
  exact ⟨by simp [query, h1, hfail], rfl⟩

/-- Witness for C3: concrete store, identity ranking, always-failing LLM. -/
theorem C3_witness :
    similarity_search (fun _ l => l) [{ page_content := "y" }] "p" 8 (pyFilter none) ≠ []
    ∧ query (fun _ l => l) (fun _ => Except.error "fallo")
        (some [{ page_content := "y" }]) "p" none = Except.error "fallo" :=
  ⟨by decide,
   (C3_amended_claim (fun _ l => l) (fun _ => Except.error "fallo")
      [{ page_content := "y" }] "p" none "fallo" (by decide) rfl).1⟩

/-! ## Claim theorems: empty retrieval short-circuit -/

/-- C6: with an index present, a query whose retrieval returns zero chunks
short-circuits to status "ok", the fixed "nothing relevant found" answer
and an empty source list, with zero invocations of the generation
capability. -/
theorem C6_empty_retrieval_short_circuit
    (rank : String → List Document → List Document)
    (llm : String → Except String String)
    (cs : List Document) (q : String) (sid : Option String)
    (h : similarity_search rank cs q 8 (pyFilter sid) = []) :
    query rank llm (some cs) q sid
      = Except.ok
          ({ status := "ok",
             answer := some "No encontré información relevante en el material disponible.",
             sources := some [] }, 0) := by
  simp [query, h]

/-- Witness for C6: an index whose only chunk belongs to subject "B",
queried with the subject filter "A". -/
theorem C6_witness :
    similarity_search (fun _ l => l)
      [{ page_content := "x", subject_id := some "B", source_file := some "f" }]
      "hola" 8 (pyFilter (some "A")) = []
    ∧ query (fun _ l => l) (fun _ => Except.ok "resp")
        (some [{ page_content := "x", subject_id := some "B", source_file := some "f" }])
        "hola" (some "A")
        = Except.ok
            ({ status := "ok",
               answer := some "No encontré información relevante en el material disponible.",
               sources := some [] }, 0) :=
  ⟨by decide,
   C6_empty_retrieval_short_circuit (fun _ l => l) (fun _ => Except.ok "resp")
     [{ page_content := "x", subject_id := some "B", source_file := some "f" }]
     "hola" (some "A") (by decide)⟩

/-! ## Claim theorems: whitespace subject filter -/

theorem query_empty_subject_eq_none
    (rank : String → List Document → List Document)
    (llm : String → Except String String)
    (store : Option (List Document)) (q : String) :
    query rank llm store q (some "") = query rank llm store q none := by
  cases store <;> rfl

/-- C10: a chat request whose `subject_id` consists only of whitespace is
stripped to the empty string by the endpoint, and `query` then treats the
empty string as an absent filter — the request behaves exactly like one
with no `subject_id` at all (unrestricted search over the full index). -/
theorem C10_whitespace_subject
    (rank : String → List Document → List Document)
    (llm : String → Except String String)
    (store : Option (List Document)) (question : String) (s : String)
    (hs : s ≠ "") (hws : pyStrip s = "") :
    chat rank llm store question (some s)
      = chat rank llm store question none := by
  unfold chat
  by_cases hq : pyStrip question = ""
  · simp [hq]
  · simp only [hq, if_neg hq, if_neg hs, hws]
    rw [query_empty_subject_eq_none]

/-- Witness for C10: a single-space subject on a populated index. -/
theorem C10_witness :
    (" " : String) ≠ ""
    ∧ pyStrip " " = ""
    ∧ chat (fun _ l => l) (fun _ => Except.ok "resp")
        (some [{ page_content := "x", subject_id := some "A", source_file := some "f" }])
        "hola" (some " ")
        = chat (fun _ l => l) (fun _ => Except.ok "resp")
            (some [{ page_content := "x", subject_id := some "A", source_file := some "f" }])
            "hola" none :=
  ⟨by decide, by decide,
   C10_whitespace_subject (fun _ l => l) (fun _ => Except.ok "resp")
     (some [{ page_content := "x", subject_id := some "A", source_file := some "f" }])
     "hola" " " (by decide) (by decide)⟩

/-! ## Claim theorems: idempotent re-indexing -/

theorem loadAll_subject (fs : String → Option FileContent) (sid : String)
    (paths : List String) :
    ∀ d ∈ (loadAll fs sid paths).1, d.subject_id = some sid := by
  induction paths with
  | nil => simp [loadAll]
  | cons fp rest ih =>
    intro d hd
    cases hfp : fs fp with
    | none =>
      simp only [loadAll, hfp] at hd
      exact ih d hd
    | some c =>
      simp only [loadAll, hfp] at hd
      rcases List.mem_append.mp hd with h1 | h2
      · rcases List.mem_map.mp h1 with ⟨x, _, rfl⟩
        rfl
      · exact ih d h2

theorem filter_filter_self {α : Type} (p : α → Bool) (l : List α) :
    (l.filter p).filter p = l.filter p := by
  induction l with
  | nil => rfl
  | cons a l ih =>
    cases h : p a <;> simp [List.filter_cons, h, ih]

theorem deleteSubject_append (sid : String) (l1 l2 : List Document) :
    deleteSubject sid (l1 ++ l2) = deleteSubject sid l1 ++ deleteSubject sid l2 :=
  List.filter_append _ _

theorem deleteSubject_idem (sid : String) (cs : List Document) :
    deleteSubject sid (deleteSubject sid cs) = deleteSubject sid cs :=
  filter_filter_self _ _

theorem deleteSubject_of_all (sid : String) (cs : List Document)
    (h : ∀ c ∈ cs, c.subject_id = some sid) :
    deleteSubject sid cs = [] := by
  induction cs with
  | nil => rfl
  | cons c cs ih =>
    have hc := h c (List.mem_cons_self c cs)
    simp only [deleteSubject, List.filter_cons, hc]
    simp only [deleteSubject] at ih
    simpa using ih (fun x hx => h x (List.mem_cons_of_mem c hx))

/-- C1: `index_documents` deletes the subject's old partition before
inserting the freshly split chunks, so re-running it with identical input
leaves the index with the same total chunk count as running it once.  The
hypothesis on `split` is the metadata-propagation contract of the external
splitter (spec §4.3): chunks inherit their documents' `subject_id`. -/
theorem C1_index_documents_idempotent
    (split : List Document → List Document)
    (hsplit : ∀ (docs : List Document) (sid : String),
      (∀ d ∈ docs, d.subject_id = some sid) →
      ∀ c ∈ split docs, c.subject_id = some sid)
    (fs : String → Option FileContent) (store : Option (List Document))
    (file_paths : List String) (subject_id : String) :
    storeCount (index_documents split fs
        (index_documents split fs store file_paths subject_id).1
        file_paths subject_id).1
      = storeCount (index_documents split fs store file_paths subject_id).1 := by
  have key : (index_documents split fs
      (index_documents split fs store file_paths subject_id).1
      file_paths subject_id).1
      = (index_documents split fs store file_paths subject_id).1 := by
    cases hemp : (loadAll fs subject_id file_paths).1.isEmpty with
    | true => simp [index_documents, hemp]
    | false =>
      have hsub : ∀ c ∈ split (loadAll fs subject_id file_paths).1,
          c.subject_id = some subject_id :=
        hsplit _ subject_id (loadAll_subject fs subject_id file_paths)
      have hdel : deleteSubject subject_id
          (split (loadAll fs subject_id file_paths).1) = [] :=
        deleteSubject_of_all _ _ hsub
      cases store with
      | none => simp [index_documents, hemp, hdel]
      | some cs =>
        simp [index_documents, hemp, deleteSubject_append, hdel, deleteSubject_idem]
  rw [key]

/-- Witness for C1: indexing the same single text file twice with the
identity splitter leaves the same count (namely 1 chunk). -/
theorem C1_witness :
    storeCount (index_documents (fun l => l)
        (fun fp => if fp = "a.txt" then some (FileContent.text "hola") else none)
        (index_documents (fun l => l)
          (fun fp => if fp = "a.txt" then some (FileContent.text "hola") else none)
          none ["a.txt"] "S").1
        ["a.txt"] "S").1
      = storeCount (index_documents (fun l => l)
          (fun fp => if fp = "a.txt" then some (FileContent.text "hola") else none)
          none ["a.txt"] "S").1
    ∧ storeCount (index_documents (fun l => l)
        (fun fp => if fp = "a.txt" then some (FileContent.text "hola") else none)
        none ["a.txt"] "S").1 = 1 :=
  ⟨C1_index_documents_idempotent (fun l => l) (fun _ _ h c hc => h c hc)
    (fun fp => if fp = "a.txt" then some (FileContent.text "hola") else none)
    none ["a.txt"] "S", rfl⟩

/-! ## Claim theorems: subject isolation -/

theorem sourcesLoop_subject (docs : List Document) :
    ∀ (seen : List String) (p : String × String), p ∈ sourcesLoop docs seen →
      ∃ d ∈ docs, p.2 = subjOf d := by
  induction docs with
  | nil =>
    intro seen p hp
    cases hp
  | cons d rest ih =>
    intro seen p hp
    simp only [sourcesLoop] at hp
    by_cases h : fileOf d ∈ seen
    · rw [if_pos h] at hp
      rcases ih seen p hp with ⟨d', hd', hs⟩
      exact ⟨d', List.mem_cons_of_mem d hd', hs⟩
    · rw [if_neg h] at hp
      cases hp with
      | head => exact ⟨d, List.mem_cons_self d rest, rfl⟩
      | tail _ hp' =>
        rcases ih _ p hp' with ⟨d', hd', hs⟩
        exact ⟨d', List.mem_cons_of_mem d hd', hs⟩

theorem similarity_search_subject
    (rank : String → List Document → List Document)
    (hrank : ∀ q cs, ∀ d ∈ rank q cs, d ∈ cs)
    (cs : List Document) (q : String) (k : Nat) (sid : String) :
    ∀ d ∈ similarity_search rank cs q k (some sid), d.subject_id = some sid := by
  intro d hd
  simp only [similarity_search] at hd
  have h1 := hrank q _ d (List.mem_of_mem_take hd)
  have h2 := (List.mem_filter.mp h1).2
  exact of_decide_eq_true h2

/-- C9: when `query` is called with a non-empty `subject_id`, the metadata
filter restricts candidates to that subject's partition before ranking, so
no chunk with a different `subject_id` appears in the retrieval result,
and every source entry of the response carries the requested subject.  The
hypothesis on `rank` is the contract of the external similarity ranking:
it only reorders and selects among the candidates it is given. -/
theorem C9_subject_isolation
    (rank : String → List Document → List Document)
    (hrank : ∀ q cs, ∀ d ∈ rank q cs, d ∈ cs)
    (llm : String → Except String String)
    (cs : List Document) (sid : String) (hsid : sid ≠ "") (question : String) :
    (∀ d ∈ similarity_search rank cs question 8 (pyFilter (some sid)),
        d.subject_id = some sid)
    ∧ (∀ (resp : QueryResponse) (n : Nat),
        query rank llm (some cs) question (some sid) = Except.ok (resp, n) →
        ∀ src ∈ resp.sources.getD [], src.2 = sid) := by
  have hp : pyFilter (some sid) = some sid := by
    simp [pyFilter, hsid]
  have hdocs : ∀ d ∈ similarity_search rank cs question 8 (pyFilter (some sid)),
      d.subject_id = some sid := by
    rw [hp]
    exact similarity_search_subject rank hrank cs question 8 sid
  refine ⟨hdocs, ?_⟩
  intro resp n h src hsrc
  simp only [query] at h
  cases hde : (similarity_search rank cs question 8 (pyFilter (some sid))).isEmpty with
  | true =>
    rw [hde] at h
    simp only [if_true] at h
    cases h
    simp at hsrc
  | false =>
    rw [hde] at h
    simp only [Bool.false_eq_true, if_false] at h
    cases hl : llm (buildPrompt
        (contextOf (similarity_search rank cs question 8 (pyFilter (some sid))))
        question) with
    | error e =>
      rw [hl] at h
      cases h
    | ok content =>
      rw [hl] at h
      cases h
      simp only [Option.getD_some] at hsrc
      rcases sourcesLoop_subject _ [] src hsrc with ⟨d, hd, hs⟩
      rw [hs, subjOf, hdocs d hd]
      rfl

/-- Witness for C9: a two-subject index queried with filter "A". -/
theorem C9_witness :
    ("A" : String) ≠ ""
    ∧ ((∀ d ∈ similarity_search (fun _ l => l)
          [{ page_content := "x", subject_id := some "A", source_file := some "f" },
           { page_content := "y", subject_id := some "B", source_file := some "g" }]
          "q" 8 (pyFilter (some "A")), d.subject_id = some "A")
       ∧ (∀ (resp : QueryResponse) (n : Nat),
            query (fun _ l => l) (fun _ => Except.ok "resp")
              (some [{ page_content := "x", subject_id := some "A", source_file := some "f" },
                     { page_content := "y", subject_id := some "B", source_file := some "g" }])
              "q" (some "A") = Except.ok (resp, n) →
            ∀ src ∈ resp.sources.getD [], src.2 = "A")) :=
  ⟨by decide,
   C9_subject_isolation (fun _ l => l) (fun _ _ _ hd => hd)
     (fun _ => Except.ok "resp")
     [{ page_content := "x", subject_id := some "A", source_file := some "f" },
      { page_content := "y", subject_id := some "B", source_file := some "g" }]
     "A" (by decide) "q"⟩

/-! ## Claim theorems: source de-duplication -/

theorem sourcesLoop_eq_spec (docs : List Document) :
    ∀ seen : List String,
      sourcesLoop docs seen
        = sourcesSpec (docs.filter (fun d => fileOf d ∉ seen)) := by
  induction docs with
  | nil =>
    intro seen
    simp [sourcesLoop, sourcesSpec]
  | cons d rest ih =>
    intro seen
    by_cases h : fileOf d ∈ seen
    · simp only [sourcesLoop, if_pos h]
      rw [ih seen]
      congr 1
      simp [List.filter_cons, h]
    · simp only [sourcesLoop, if_neg h]
      rw [ih (fileOf d :: seen)]
      have hrhs : (d :: rest).filter (fun x => fileOf x ∉ seen)
          = d :: rest.filter (fun x => fileOf x ∉ seen) := by
        simp [List.filter_cons, h]
      rw [hrhs, sourcesSpec, List.filter_filter]
      congr 1
      congr 1
      apply List.filter_congr
      intro x _
      have hd2 : decide (fileOf x ∉ fileOf d :: seen)
          = decide (fileOf x ≠ fileOf d ∧ fileOf x ∉ seen) :=
        decide_eq_decide.mpr (by simp [not_or])
      rw [hd2]
      simp

theorem sourcesSpec_fst_mem (docs : List Document) :
    ∀ p ∈ sourcesSpec docs, ∃ d ∈ docs, p.1 = fileOf d := by
  induction docs using sourcesSpec.induct with
  | case1 =>
    intro p hp
    simp [sourcesSpec] at hp
  | case2 d rest ih =>
    intro p hp
    rw [sourcesSpec] at hp
    cases hp with
    | head => exact ⟨d, List.mem_cons_self d rest, rfl⟩
    | tail _ hp' =>
      rcases ih p hp' with ⟨d', hd', hs⟩
      exact ⟨d', List.mem_cons_of_mem d (List.mem_of_mem_filter hd'), hs⟩

theorem sourcesSpec_fst_nodup (docs : List Document) :
    ((sourcesSpec docs).map Prod.fst).Nodup := by
  induction docs using sourcesSpec.induct with
  | case1 =>
    simp [sourcesSpec]
  | case2 d rest ih =>
    rw [sourcesSpec]
    simp only [List.map_cons, List.nodup_cons]
    refine ⟨?_, ih⟩
    intro hmem
    rcases List.mem_map.mp hmem with ⟨p, hp, hfst⟩
    rcases sourcesSpec_fst_mem _ p hp with ⟨d', hd', hs⟩
    have hpd := List.of_mem_filter hd'
    simp only [decide_eq_true_eq] at hpd
    exact hpd (by rw [← hs, hfst])

/-- C7: for a non-empty ranked retrieval result, the synthesized answer's
sources are exactly one entry per distinct `source_file` in first-seen
rank order, each paired with the subject of the first chunk carrying that
file (`sourcesSpec`, stated from the spec), and the file names carry no
duplicate. -/
theorem C7_sources_dedup
    (rank : String → List Document → List Document)
    (llm : String → Except String String)
    (cs : List Document) (q : String) (sid : Option String)
    (docs : List Document) (content : String)
    (hdocs : docs = similarity_search rank cs q 8 (pyFilter sid))
    (hne : docs ≠ [])
    (hllm : llm (buildPrompt (contextOf docs) q) = Except.ok content) :
    query rank llm (some cs) q sid
      = Except.ok
          ({ status := "ok", answer := some content,
             sources := some (sourcesSpec docs) }, 1)
    ∧ ((sourcesSpec docs).map Prod.fst).Nodup := by
  have hext : extract_sources docs = sourcesSpec docs := by
    have h := sourcesLoop_eq_spec docs []
    simpa [extract_sources] using h
  refine ⟨?_, sourcesSpec_fst_nodup docs⟩
  have h1 : docs.isEmpty = false := by
    simpa [List.isEmpty_iff] using hne
  subst hdocs
  simp [query, h1, hllm, hext]

/-- Witness for C7: three retrieved chunks over two distinct files. -/
theorem C7_witness :
    ([{ page_content := "1", subject_id := some "A", source_file := some "f" },
      { page_content := "2", subject_id := some "B", source_file := some "f" },
      { page_content := "3", subject_id := some "A", source_file := some "g" }]
        : List Document) ≠ []
    ∧ query (fun _ l => l) (fun _ => Except.ok "resp")
        (some [{ page_content := "1", subject_id := some "A", source_file := some "f" },
               { page_content := "2", subject_id := some "B", source_file := some "f" },
               { page_content := "3", subject_id := some "A", source_file := some "g" }])
        "q" none
        = Except.ok
            ({ status := "ok", answer := some "resp",
               sources := some (sourcesSpec
                 [{ page_content := "1", subject_id := some "A", source_file := some "f" },
                  { page_content := "2", subject_id := some "B", source_file := some "f" },
                  { page_content := "3", subject_id := some "A", source_file := some "g" }]) }, 1) :=
  ⟨by decide,
   (C7_sources_dedup (fun _ l => l) (fun _ => Except.ok "resp")
      [{ page_content := "1", subject_id := some "A", source_file := some "f" },
       { page_content := "2", subject_id := some "B", source_file := some "f" },
       { page_content := "3", subject_id := some "A", source_file := some "g" }]
      "q" none
      [{ page_content := "1", subject_id := some "A", source_file := some "f" },
       { page_content := "2", subject_id := some "B", source_file := some "f" },
       { page_content := "3", subject_id := some "A", source_file := some "g" }]
      "resp" rfl (by decide) rfl).1⟩

end RagService
